import Mathlib

/-!
Verification of the asynchronous texture-replacement loading engine
(`GPU/Common/ReplacedTexture.cpp`): a shallow embedding of the per-texture
state machine (`IsReady`, `FinishPopulate`, `PurgeIfOlder`), the background
load routine (`Prepare` / `LoadLevelData`), the format sniffer
(`IdentifyMagic`) and the pixel copy-out (`CopyLevelTo`), together with
theorems about their contracts.

Modelling conventions:
* machine integers are `Nat` (all quantities involved are unsigned or
  provably non-negative; C++ truncating division on non-negative ints is
  `Nat` division, `>>` is `Nat.shiftRight`);
* times (`double` timestamps) are `Int`, only comparisons matter;
* the VFS collaborator is a partial map from filenames to parsed file
  contents; byte-level header parsing is represented by the parsed fields
  the code extracts, with explicit flags for each fallible read;
* decoded pixel payloads are byte lists whose length follows the code's
  buffer arithmetic (pixel values themselves are not tracked: no claim
  inspects them);
* the bounded-wait completion signal is represented by a boolean oracle
  (`waitOk` / `taskFinished`) saying whether the corresponding
  `WaitFor` call succeeded within its budget.
-/

/-- `ReplacementState` of a texture replacement handle. -/
inductive ReplacementState
  | UNINITIALIZED
  | POPULATED
  | PENDING
  | NOT_FOUND
  | ACTIVE
  | CANCEL_INIT
deriving DecidableEq, Repr

/-- The container formats the sniffer can report. -/
inductive ReplacedImageType
  | ZIM
  | PNG
  | DDS
  | BASIS
  | KTX2
  | INVALID
deriving DecidableEq, Repr

/-- The subset of `Draw::DataFormat` this code produces. -/
inductive DataFormat
  | UNDEFINED
  | R8G8B8A8_UNORM
  | BC1_RGBA_UNORM_BLOCK
  | BC2_UNORM_BLOCK
  | BC3_UNORM_BLOCK
  | BC7_UNORM_BLOCK
  | ETC2_R8G8B8_UNORM_BLOCK
  | ASTC_4x4_UNORM_BLOCK
deriving DecidableEq, Repr

/-- Alpha classification of a replacement texture (declared in the header
`ReplacedTexture.h`; values as described in the spec's glossary). -/
inductive ReplacedTextureAlpha
  | UNKNOWN
  | FULL
  | ANY
deriving DecidableEq, Repr

/-- Result of `CheckAlpha32Rect` as used here. -/
inductive CheckAlphaResult
  | CHECKALPHA_FULL
  | CHECKALPHA_ANY
deriving DecidableEq, Repr

/-- The cast `ReplacedTextureAlpha(res)` applied to a `CheckAlphaResult`. -/
def alphaOfCheck : CheckAlphaResult → ReplacedTextureAlpha
  | .CHECKALPHA_FULL => .FULL
  | .CHECKALPHA_ANY => .ANY

/-- Result of `ReplacedTexture::LoadLevelData` for one level. -/
inductive LoadLevelResult
  | CONTINUE
  | DONE
  | LOAD_ERROR
deriving DecidableEq, Repr

/-- `IdentifyMagic`: dispatch on the four leading bytes of a file.
The `sB`-prefix branch additionally requires the little-endian 16-bit
version word built from bytes 2 and 3 to be at least `0x10`; when that
fails, the chain falls through to `INVALID` (the KTX test is an
`else if` of the `sB` test, so it is not retried). -/
def IdentifyMagic (m0 m1 m2 m3 : Nat) : ReplacedImageType :=
  if m0 = 0x5A ∧ m1 = 0x49 ∧ m2 = 0x4D ∧ m3 = 0x47 then .ZIM
  else if m0 = 0x89 ∧ m1 = 0x50 ∧ m2 = 0x4E ∧ m3 = 0x47 then .PNG
  else if m0 = 0x44 ∧ m1 = 0x44 ∧ m2 = 0x53 ∧ m3 = 0x20 then .DDS
  else if m0 = 0x73 ∧ m1 = 0x42 then
    (if 0x10 ≤ m2 ||| (m3 <<< 8) then .BASIS else .INVALID)
  else if m0 = 0xAB ∧ m1 = 0x4B ∧ m2 = 0x54 ∧ m3 = 0x58 then .KTX2
  else .INVALID

/-- `MK_FOURCC("DX10")`. -/
def FOURCC_DX10 : Nat := 0x30315844

/-- `MK_FOURCC("DXT1")`. -/
def FOURCC_DXT1 : Nat := 0x31545844

/-- `MK_FOURCC("DXT3")`. -/
def FOURCC_DXT3 : Nat := 0x33545844

/-- `MK_FOURCC("DXT5")`. -/
def FOURCC_DXT5 : Nat := 0x35545844

/-- `RoundUpTo4`. -/
def RoundUpTo4 (value : Nat) : Nat := (value + 3) / 4 * 4

/-- Device capability flags for compressed block formats
(`desc_->formatSupport`). -/
structure FormatSupport where
  bc123 : Bool
  bc7 : Bool
  etc2 : Bool
  astc : Bool
deriving DecidableEq, Repr

/-- The load descriptor (`ReplacementDesc`): candidate filenames per mip
level, target dimensions `w`/`h` and original dimensions `newW`/`newH`
used for the scale-ratio correction `level.w * desc->w / desc->newW`,
plus the capability flags. -/
structure ReplacementDesc where
  filenames : List String
  w : Nat
  h : Nat
  newW : Nat
  newH : Nat
  formatSupport : FormatSupport
deriving DecidableEq, Repr

/-- `ReplacedTextureLevel`: dimensions plus whether the level holds a
file reference (`fileRef != nullptr`). -/
structure ReplacedTextureLevel where
  w : Nat
  h : Nat
  fileRef : Bool
deriving DecidableEq, Repr

/-- `ReplacedLevelsCache`: the shared cache entry — per-mip byte buffers,
resolved format, last-access time.  (Its lock is a runtime artifact with
no observable effect in this sequential model.) -/
structure ReplacedLevelsCache where
  fmt : DataFormat
  data : List (List Nat)
  lastUsed : Int
deriving DecidableEq, Repr

/-- Parsed fields of a KTX2 file as the code reads them.  `hdrRead`
models success of the header read; `initOk` models
`ktx2_transcoder::init`; `payload` distinguishes `is_etc1s` /
`is_uastc` / neither; `levelDims` are the per-internal-mip original
dimensions reported by `get_image_level_info`. -/
structure KTXInfo where
  hdrRead : Bool
  pixelWidth : Nat
  pixelHeight : Nat
  levelCount : Nat
  layerCount : Nat
  initOk : Bool
  isETC1S : Bool
  isUASTC : Bool
  levelDims : List (Nat × Nat)
deriving DecidableEq, Repr

/-- Parsed fields of a DDS file as the code reads them. -/
structure DDSInfo where
  hdrRead : Bool
  dwWidth : Nat
  dwHeight : Nat
  dwMipMapCount : Nat
  fourccFlag : Bool
  fourcc : Nat
  hdr10Read : Bool
  dxgiFormat : Nat
deriving DecidableEq, Repr

/-- Parsed fields of a ZIM file: header fields, whether
`(flags & ZIM_FORMAT_MASK) == ZIM_RGBA8888` (the constants live in the
external `ZIMLoad.h`), whether the whole-file read and `LoadZIMPtr`
succeed, the decoded body dimensions, and the `CheckAlpha32Rect`
outcome on the decoded pixels. -/
structure ZIMInfo where
  hdrRead : Bool
  w : Nat
  h : Nat
  flagsRGBA8888 : Bool
  readOk : Bool
  bodyOk : Bool
  bodyW : Nat
  bodyH : Nat
  alphaRes : CheckAlphaResult
deriving DecidableEq, Repr

/-- Parsed fields of a PNG file: header peek success and validity,
declared dimensions, decode begin/finish success, the
`PNG_FORMAT_FLAG_ALPHA` bit, and the `CheckAlpha32Rect` outcome. -/
structure PNGInfo where
  peekRead : Bool
  validHeader : Bool
  w : Nat
  h : Nat
  beginReadOk : Bool
  finishReadOk : Bool
  hasAlphaFlag : Bool
  alphaRes : CheckAlphaResult
deriving DecidableEq, Repr

/-- A file's parsed content; the constructor corresponds to the image
type the sniffer reports for its magic bytes. -/
inductive VFile
  | ktx2 (k : KTXInfo)
  | basis
  | dds (d : DDSInfo)
  | zim (z : ZIMInfo)
  | png (p : PNGInfo)
  | unknown
deriving DecidableEq, Repr

/-- A filesystem entry: `openOk` models `OpenFileForRead` succeeding
after `GetFile` already did. -/
structure FSEntry where
  openOk : Bool
  file : VFile
deriving DecidableEq, Repr

/-- `std::vector::resize(n)`: keep a prefix of length at most `n`, pad
with `pad` up to length exactly `n`. -/
def resizeExact (l : List α) (n : Nat) (pad : α) : List α :=
  l.take n ++ List.replicate (n - l.length) pad

/-- Write buffer `v` at index `i`.  In bounds this is `List.set`; the
out-of-bounds case pads with empty buffers first — the C++ code indexes
the vector directly and an out-of-bounds write there is undefined; this
model gives it growing semantics (see the `LoadLevelData` multi-mip
branches, which resize the level array to exactly the file's mip count
and then index from `mipLevel`). -/
def setPad (l : List (List Nat)) (i : Nat) (v : List Nat) : List (List Nat) :=
  if i < l.length then l.set i v else (resizeExact l (i + 1) []).set i v

/-- `DataFormatIsBlockCompressed`: block byte size of the 4x4-block
formats used here (from `Common/GPU/DataFormat`, external to this
file): BC1 and ETC2 pack a block into 8 bytes, BC2/BC3/BC7/ASTC-4x4
into 16. -/
def blockSizeOf : DataFormat → Nat
  | .BC1_RGBA_UNORM_BLOCK => 8
  | .BC2_UNORM_BLOCK => 16
  | .BC3_UNORM_BLOCK => 16
  | .BC7_UNORM_BLOCK => 16
  | .ETC2_R8G8B8_UNORM_BLOCK => 8
  | .ASTC_4x4_UNORM_BLOCK => 16
  | _ => 0

/-- Whether `DataFormatIsBlockCompressed` reports true. -/
def isBlockCompressed (f : DataFormat) : Bool :=
  blockSizeOf f ≠ 0

/-- Level-data state threaded through `LoadLevelData` and the `Prepare`
loop: the shared cache entry, the handle's accepted level list, the
alpha classification, and the `pixelFormat` out-variable of `Prepare`
(a local the callee writes through a pointer). -/
structure LoadState where
  cache : ReplacedLevelsCache
  levels : List ReplacedTextureLevel
  alpha : ReplacedTextureAlpha
  pixelFormat : DataFormat
deriving DecidableEq, Repr

/-- Output of the header-parsing phase of `LoadLevelData`: the `good`
flag, the header-declared dimensions (`level.w` / `level.h`; 0 stands
for the never-read case of the `BASIS`/unrecognized branches, where the
C++ locals stay uninitialized but are also never used on a live path),
the mip count, the DX10 flag, and the value written through
`pixelFormat` (`none` = the callee did not write it). -/
structure HeaderOut where
  good : Bool
  w : Nat
  h : Nat
  numMips : Nat
  ddsDX10 : Bool
  pf : Option DataFormat
deriving DecidableEq, Repr

/-- DDS fourCC dispatch under `DDPF_FOURCC`, classic path: needs the
BC1-3 capability; DXT1/DXT3/DXT5 map to BC1/BC2/BC3. -/
def ddsClassicFormat (bc123 : Bool) (fourcc : Nat) : Bool × Option DataFormat :=
  if fourcc = FOURCC_DXT1 then (bc123, some .BC1_RGBA_UNORM_BLOCK)
  else if fourcc = FOURCC_DXT3 then (bc123, some .BC2_UNORM_BLOCK)
  else if fourcc = FOURCC_DXT5 then (bc123, some .BC3_UNORM_BLOCK)
  else (false, none)

/-- The header-parsing phase of `LoadLevelData` (everything between
`Identify` and the cache-population check), per container type. -/
def headerPhase (fsupp : FormatSupport) : VFile → HeaderOut
  | .ktx2 k =>
    { good := k.hdrRead && decide (k.layerCount ≤ 1)
      w := k.pixelWidth, h := k.pixelHeight
      numMips := k.levelCount, ddsDX10 := false, pf := none }
  | .basis =>
    { good := false, w := 0, h := 0, numMips := 1, ddsDX10 := false, pf := none }
  | .dds d =>
    if d.hdrRead && d.fourccFlag then
      if d.fourcc = FOURCC_DX10 then
        if d.dxgiFormat = 98 ∨ d.dxgiFormat = 99 then
          { good := d.hdr10Read && fsupp.bc7
            w := d.dwWidth, h := d.dwHeight, numMips := d.dwMipMapCount
            ddsDX10 := true, pf := some .BC7_UNORM_BLOCK }
        else
          { good := false, w := d.dwWidth, h := d.dwHeight
            numMips := d.dwMipMapCount, ddsDX10 := true, pf := some .UNDEFINED }
      else
        let classic := ddsClassicFormat fsupp.bc123 d.fourcc
        { good := classic.1
          w := d.dwWidth, h := d.dwHeight, numMips := d.dwMipMapCount
          ddsDX10 := false
          pf := some (classic.2.getD .UNDEFINED) }
    else
      { good := false, w := d.dwWidth, h := d.dwHeight
        numMips := d.dwMipMapCount, ddsDX10 := false
        pf := some .UNDEFINED }
  | .zim z =>
    { good := z.hdrRead && z.flagsRGBA8888
      w := z.w, h := z.h, numMips := 1, ddsDX10 := false
      pf := some .R8G8B8A8_UNORM }
  | .png p =>
    { good := p.peekRead && p.validHeader
      w := if p.peekRead && p.validHeader then p.w else 0
      h := if p.peekRead && p.validHeader then p.h else 0
      numMips := 1, ddsDX10 := false
      pf := some .R8G8B8A8_UNORM }
  | .unknown =>
    { good := false, w := 0, h := 0, numMips := 1, ddsDX10 := false, pf := none }

/-- The mip-size validation for levels `>= 1`: the ratio-corrected
dimensions must equal level 0's dimensions shifted right by the mip
index (`levels_[0].w >> mipLevel`), with no minimum clamp. -/
def mipSizeOk (l0 : ReplacedTextureLevel) (mip w h : Nat) : Bool :=
  decide (w = l0.w >>> mip) && decide (h = l0.h >>> mip)

/-- Byte-buffer `resize` (zero-fills growth, like `vector<uint8_t>`). -/
def resizeBytes (buf : List Nat) (n : Nat) : List Nat :=
  resizeExact buf n 0

/-- The per-internal-mip loop of the KTX2 branch.  Per iteration:
compute the output size from the level info (block count times block
size, or width*height*4 when transcoding to RGBA8), `resize` the buffer
at index `i` (the code indexes the resize with `i`, not
`mipLevel + i`), transcode into the buffer at `mipLevel + i`, set the
level dimensions from the level info, null the file reference for
`i != 0`, and append the level. -/
def ktxLoop (mip blockSize : Nat) (bc : Bool) (dims : List (Nat × Nat)) :
    Nat → Nat → Bool → List (List Nat) → List ReplacedTextureLevel →
    List (List Nat) × List ReplacedTextureLevel
  | 0, _, _, data, levels => (data, levels)
  | rem + 1, i, fref, data, levels =>
    let ow := (dims.getD i (0, 0)).1
    let oh := (dims.getD i (0, 0)).2
    let dataSize := if bc then (ow + 3) / 4 * ((oh + 3) / 4) * blockSize else ow * oh * 4
    let data1 := setPad data i (resizeBytes (data.getD i []) dataSize)
    let data2 := setPad data1 (mip + i) (List.replicate dataSize 0)
    let fref1 := if i ≠ 0 then false else fref
    ktxLoop mip blockSize bc dims rem (i + 1) fref1 data2
      (levels ++ [{ w := ow, h := oh, fileRef := fref1 }])

/-- The per-mip loop of the DDS branch.  Per iteration: read
`RoundUpTo4(w) * RoundUpTo4(h) * blockSize / 16` bytes into the buffer
at `mipLevel + i`, append the level with the current dimensions and
file reference, halve the dimensions (floor, minimum 1), and null the
file reference after the iteration when `i != 0` (so the levels pushed
at `i = 0` and `i = 1` both carry the reference). -/
def ddsLoop (mip blockSize : Nat) :
    Nat → Nat → Nat → Nat → Bool → List (List Nat) → List ReplacedTextureLevel →
    List (List Nat) × List ReplacedTextureLevel
  | 0, _, _, _, _, data, levels => (data, levels)
  | rem + 1, i, w, h, fref, data, levels =>
    let bytesToRead := RoundUpTo4 w * RoundUpTo4 h * blockSize / 16
    let data1 := setPad data (mip + i) (List.replicate bytesToRead 0)
    let levels1 := levels ++ [{ w := w, h := h, fileRef := fref }]
    let fref1 := if i ≠ 0 then false else fref
    ddsLoop mip blockSize rem (i + 1) (max (w / 2) 1) (max (h / 2) 1) fref1 data1 levels1

/-- Decode phase of the KTX2 branch (reached only with `good` set):
transcoder init, target-format choice from the capability flags
(etc1s: BC1, then ETC2, then RGBA8 fallback, alpha `FULL`; uastc: BC7,
then ASTC, then RGBA8 fallback, alpha `UNKNOWN`; neither: error), then
the per-mip transcode loop. -/
def ktxDecode (fsupp : FormatSupport) (k : KTXInfo) (mip numMips : Nat)
    (st : LoadState) : LoadLevelResult × LoadState :=
  if !k.initOk then (.LOAD_ERROR, st)
  else if k.isETC1S then
    let pf : DataFormat :=
      if fsupp.bc123 then .BC1_RGBA_UNORM_BLOCK
      else if fsupp.etc2 then .ETC2_R8G8B8_UNORM_BLOCK
      else .R8G8B8A8_UNORM
    let bc := isBlockCompressed pf
    let r := ktxLoop mip (blockSizeOf pf) bc k.levelDims numMips 0 true
      (resizeExact st.cache.data numMips []) st.levels
    (.DONE, { st with pixelFormat := pf, alpha := .FULL
                      cache := { st.cache with data := r.1 }, levels := r.2 })
  else if k.isUASTC then
    let pf : DataFormat :=
      if fsupp.bc7 then .BC7_UNORM_BLOCK
      else if fsupp.astc then .ASTC_4x4_UNORM_BLOCK
      else .R8G8B8A8_UNORM
    let bc := isBlockCompressed pf
    let r := ktxLoop mip (blockSizeOf pf) bc k.levelDims numMips 0 true
      (resizeExact st.cache.data numMips []) st.levels
    (.DONE, { st with pixelFormat := pf, alpha := .UNKNOWN
                      cache := { st.cache with data := r.1 }, levels := r.2 })
  else (.LOAD_ERROR, st)

/-- Decode phase of the DDS branch (reached only with `good` set):
alpha is set to `UNKNOWN`, the cache's level array is resized to
exactly the file's mip count, and the per-mip read loop runs starting
from the ratio-corrected dimensions. -/
def ddsDecode (mip numMips w h : Nat) (st : LoadState) :
    LoadLevelResult × LoadState :=
  let r := ddsLoop mip (blockSizeOf st.pixelFormat) numMips 0 w h true
    (resizeExact st.cache.data numMips []) st.levels
  (.DONE, { st with alpha := .UNKNOWN
                    cache := { st.cache with data := r.1 }, levels := r.2 })

/-- Decode phase of the ZIM branch: whole-file read, `LoadZIMPtr`,
body-vs-header size check, pixel copy into the buffer at `mipLevel`,
alpha classification from the decoded pixels (stored when the result is
`ANY` or this is level 0), and the accepted level.  A `LoadZIMPtr`
failure returns `CONTINUE` without touching anything. -/
def zimDecode (z : ZIMInfo) (mip w h : Nat) (fref : Bool) (st : LoadState) :
    LoadLevelResult × LoadState :=
  if !z.readOk then (.LOAD_ERROR, st)
  else if z.bodyOk then
    if z.bodyW > w ∨ z.bodyH > h then (.LOAD_ERROR, st)
    else
      let st1 := { st with cache :=
        { st.cache with data := setPad st.cache.data mip (List.replicate (w * h * 4) 0) } }
      let st2 := if z.alphaRes = .CHECKALPHA_ANY ∨ mip = 0 then
          { st1 with alpha := alphaOfCheck z.alphaRes } else st1
      (.CONTINUE, { st2 with levels := st2.levels ++ [{ w := w, h := h, fileRef := fref }] })
  else (.CONTINUE, st)

/-- Decode phase of the PNG branch: decode begin, decoded-vs-header
size check, alpha from the header flag (level 0 only) or from the
decoded pixels, the pixel buffer at `mipLevel` (emptied again when the
finishing read fails), and the accepted level. -/
def pngDecode (p : PNGInfo) (mip w h : Nat) (fref : Bool) (st : LoadState) :
    LoadLevelResult × LoadState :=
  if !p.beginReadOk then (.LOAD_ERROR, st)
  else if p.w > w ∨ p.h > h then (.LOAD_ERROR, st)
  else
    let st1 := if !p.hasAlphaFlag ∧ mip = 0 then { st with alpha := .FULL } else st
    let st2 := { st1 with cache :=
      { st1.cache with data := setPad st1.cache.data mip (List.replicate (w * h * 4) 0) } }
    if !p.finishReadOk then
      (.LOAD_ERROR, { st2 with cache :=
        { st2.cache with data := setPad st2.cache.data mip [] } })
    else
      let st3 := if p.hasAlphaFlag ∧ (p.alphaRes = .CHECKALPHA_ANY ∨ mip = 0) then
          { st2 with alpha := alphaOfCheck p.alphaRes } else st2
      (.CONTINUE, { st3 with levels := st3.levels ++ [{ w := w, h := h, fileRef := fref }] })

/-- Default level used to read `levels_[0]` when the level list is
empty (the C++ code indexes the vector unchecked there). -/
def level0Default : ReplacedTextureLevel := { w := 0, h := 0, fileRef := false }

/-- `ReplacedTexture::LoadLevelData`: grow the cache's level array to
cover `mipLevel`, open the file (failure is a quiet `DONE`), parse the
header for the sniffed container type, short-circuit to `DONE` adopting
the cache's stored format when the buffer for this level is already
populated, apply the scale-ratio correction, validate mip dimensions
for levels `>= 1`, and run the per-container decode phase. -/
def LoadLevelData (desc : ReplacementDesc) (entry : FSEntry) (mip : Nat)
    (st : LoadState) : LoadLevelResult × LoadState :=
  let data0 := if st.cache.data.length ≤ mip
    then resizeExact st.cache.data (mip + 1) [] else st.cache.data
  let st0 := { st with cache := { st.cache with data := data0 } }
  if !entry.openOk then (.DONE, st0)
  else
    let hdr := headerPhase desc.formatSupport entry.file
    let st1 := { st0 with pixelFormat := hdr.pf.getD st0.pixelFormat }
    if (st1.cache.data.getD mip []) ≠ [] then
      (.DONE, { st1 with pixelFormat := st1.cache.fmt })
    else
      let w := hdr.w * desc.w / desc.newW
      let h := hdr.h * desc.h / desc.newH
      let good := hdr.good &&
        (decide (mip = 0) || mipSizeOk (st1.levels.getD 0 level0Default) mip w h)
      if !good then (.LOAD_ERROR, st1)
      else
        match entry.file with
        | .ktx2 k => ktxDecode desc.formatSupport k mip hdr.numMips st1
        | .dds _ => ddsDecode mip hdr.numMips w h st1
        | .zim z => zimDecode z mip w h true st1
        | .png p => pngDecode p mip w h true st1
        | _ => (.LOAD_ERROR, st1)

/-- State carried by the `Prepare` loop: the load state plus the
handle's `fmt` field and the last `LoadLevelResult`. -/
structure PrepState where
  ls : LoadState
  fmt : DataFormat
  result : LoadLevelResult
deriving DecidableEq, Repr

/-- Outcome of a completed `Prepare` run: the published state
(`ACTIVE`/`NOT_FOUND`), the handle fields it wrote, the cache binding
(released on `NOT_FOUND`), and the freed descriptor slot. -/
structure PrepOut where
  state : ReplacementState
  fmt : DataFormat
  levels : List ReplacedTextureLevel
  alpha : ReplacedTextureAlpha
  cache : Option ReplacedLevelsCache
  desc : Option ReplacementDesc
deriving DecidableEq, Repr

/-- The `for` loop of `ReplacedTexture::Prepare`, iterating mip index
`i` while `i < min(MAX_REPLACEMENT_MIP_LEVELS, filenames.size())`
(`fuel` counts the remaining iterations of that bound): check
cancellation, stop at an empty candidate filename, stop with `DONE` on
a missing file, default the format to RGBA8 before loading level 0,
then dispatch on the level-load result — `DONE` adopts the returned
pixel format and stops; `CONTINUE` adopts it at level 0 and otherwise
stops on a format mismatch; an error stops. -/
def prepareLoop (fs : String → Option FSEntry) (cancel : Nat → Bool)
    (desc : ReplacementDesc) : Nat → Nat → PrepState → PrepState
  | 0, _, st => st
  | fuel + 1, i, st =>
    if cancel i then st
    else if desc.filenames.getD i "" = "" then st
    else
      match fs (desc.filenames.getD i "") with
      | none => { st with result := .DONE }
      | some entry =>
        let st1 := if i = 0 then { st with fmt := .R8G8B8A8_UNORM } else st
        let r := LoadLevelData desc entry i st1.ls
        let st2 := { st1 with ls := r.2, result := r.1 }
        match r.1 with
        | .DONE => { st2 with fmt := st2.ls.pixelFormat }
        | .CONTINUE =>
          if i = 0 then
            prepareLoop fs cancel desc fuel (i + 1) { st2 with fmt := st2.ls.pixelFormat }
          else if st2.fmt ≠ st2.ls.pixelFormat then st2
          else prepareLoop fs cancel desc fuel (i + 1) st2
        | .LOAD_ERROR => st2

/-- The completion block at the end of `ReplacedTexture::Prepare`: zero
accepted levels publish `NOT_FOUND` and release the cache binding; one
or more publish `ACTIVE` and stamp the cache entry's format; the
descriptor is freed either way. -/
def prepFinish (st : PrepState) : PrepOut :=
  if st.ls.levels.isEmpty then
    { state := .NOT_FOUND, fmt := st.fmt, levels := st.ls.levels
      alpha := st.ls.alpha, cache := none, desc := none }
  else
    { state := .ACTIVE, fmt := st.fmt, levels := st.ls.levels
      alpha := st.ls.alpha, cache := some { st.ls.cache with fmt := st.fmt }
      desc := none }

/-- `ReplacedTexture::Prepare`, run once per background task:
`fmt` starts `UNDEFINED`, the level loop runs, then the completion
block publishes the final state.  `maxLevels` stands for
`MAX_REPLACEMENT_MIP_LEVELS` (defined in the external
`TextureReplacer.h`); `pf0` is the initial value of the local
`pixelFormat` variable (the C++ leaves it uninitialized); `cancel i`
tells whether the state reads `CANCEL_INIT` when level `i` begins. -/
def Prepare (fs : String → Option FSEntry) (cancel : Nat → Bool) (maxLevels : Nat)
    (desc : ReplacementDesc) (cache : ReplacedLevelsCache)
    (levels0 : List ReplacedTextureLevel) (alpha0 : ReplacedTextureAlpha)
    (pf0 : DataFormat) : PrepOut :=
  let st0 : PrepState :=
    { ls := { cache := cache, levels := levels0, alpha := alpha0, pixelFormat := pf0 }
      fmt := .UNDEFINED
      result := if desc.filenames.isEmpty then .DONE else .LOAD_ERROR }
  prepFinish (prepareLoop fs cancel desc (min maxLevels desc.filenames.length) 0 st0)

/-- The texture replacement handle (`ReplacedTexture`): current state,
accepted levels, resolved format, alpha classification, shared cache
binding, owned descriptor, whether a completion signal object is
outstanding (`threadWaitable_ != nullptr`), and last-use time. -/
structure ReplacedTexture where
  state : ReplacementState
  levels : List ReplacedTextureLevel
  fmt : DataFormat
  alphaStatus : ReplacedTextureAlpha
  levelData : Option ReplacedLevelsCache
  desc : Option ReplacementDesc
  threadWaitable : Bool
  lastUsed : Int
deriving DecidableEq, Repr

/-- `ReplacedTexture::FinishPopulate`: bind the cache entry, take
ownership of the descriptor, and move to `POPULATED`. -/
def FinishPopulate (h : ReplacedTexture) (desc : ReplacementDesc)
    (cache : ReplacedLevelsCache) : ReplacedTexture :=
  { h with levelData := some cache, desc := some desc, state := .POPULATED }

/-- Apply a completed `Prepare` outcome to the handle: the task thread
wrote the published state, the level list, the format, the alpha
classification and the (possibly released) cache binding, and freed the
descriptor. -/
def applyPrepare (h : ReplacedTexture) (p : PrepOut) : ReplacedTexture :=
  { h with state := p.state, levels := p.levels, fmt := p.fmt
           alphaStatus := p.alpha, levelData := p.cache, desc := none }

/-- The `Prepare` outcome a task spawned on handle `h` computes.  The
fallback for a missing descriptor or cache binding is never exercised
on states the program survives (`Prepare` asserts the cache binding and
dereferences the descriptor). -/
def taskOutcome (fs : String → Option FSEntry) (cancel : Nat → Bool)
    (maxLevels : Nat) (h : ReplacedTexture) (pf0 : DataFormat) : PrepOut :=
  match h.desc, h.levelData with
  | some d, some c => Prepare fs cancel maxLevels d c h.levels h.alphaStatus pf0
  | _, _ =>
    { state := .NOT_FOUND, fmt := .UNDEFINED, levels := [], alpha := .UNKNOWN
      cache := none, desc := none }

/-- `ReplacedTexture::IsReady(budget)`.  `now` is `time_now_d()`;
`waitOk` tells whether the bounded wait on the completion signal
succeeded within `budget`; `prep` is the outcome the background task
computes (relevant only when a task is spawned here, i.e. from
`POPULATED` with a non-negative budget).  Returns the flag and the
handle afterwards. -/
def IsReady (h : ReplacedTexture) (budget now : Int) (waitOk : Bool)
    (prep : PrepOut) : Bool × ReplacedTexture :=
  match h.state with
  | .ACTIVE | .NOT_FOUND =>
    if h.threadWaitable then
      if !waitOk then (false, { h with lastUsed := now })
      else
        (true, { h with threadWaitable := false
                        levelData := h.levelData.map (fun c => { c with lastUsed := now })
                        lastUsed := now })
    else (true, { h with lastUsed := now })
  | .UNINITIALIZED => (false, h)
  | .CANCEL_INIT => (false, h)
  | .PENDING => (false, h)
  | .POPULATED =>
    let h1 := { h with lastUsed := now }
    if budget < 0 then (false, h1)
    else
      let h2 := { h1 with threadWaitable := true, state := .PENDING }
      if waitOk then (true, applyPrepare h2 prep) else (false, h2)

/-- `ReplacedTexture::PurgeIfOlder(t)`: skip while a task is
outstanding and its signal has not fired (`WaitFor(0.0)` fails,
modelled by `taskFinished`), skip when the handle itself was used at or
after `t`, and otherwise — when a cache entry is bound and was last
used before `t` — clear its byte buffers and demote to `POPULATED`. -/
def PurgeIfOlder (h : ReplacedTexture) (t : Int) (taskFinished : Bool) :
    ReplacedTexture :=
  if h.threadWaitable ∧ !taskFinished then h
  else if t ≤ h.lastUsed then h
  else
    match h.levelData with
    | some c =>
      if c.lastUsed < t then
        { h with levelData := some { c with data := [] }, state := .POPULATED }
      else h
    | none => h

/-- Write the bytes of `src` into `dest` starting at `off`. -/
def writeBytesAt (dest : Nat → Nat) (off : Nat) (src : List Nat) : Nat → Nat :=
  fun i => if h : off ≤ i ∧ i - off < src.length then src.get ⟨i - off, h.2⟩ else dest i

/-- Row-by-row copy honoring `rowPitch`: row `y` of tight width `w4`
goes to destination offset `rowPitch * y`. -/
def copyRows (src : List Nat) (w4 rowPitch : Nat) :
    Nat → Nat → (Nat → Nat) → Nat → Nat
  | 0, _, dest => dest
  | rows + 1, y, dest =>
    copyRows src w4 rowPitch rows (y + 1)
      (writeBytesAt dest (rowPitch * y) ((src.drop (w4 * y)).take w4))

/-- `ReplacedTexture::CopyLevelTo(level, out, rowPitch)`: fail before
any write when the state is not `ACTIVE`, when the cache bytes for the
level are gone, or (uncompressed RGBA8 data only) when `rowPitch` is
below the tight stride `w * 4`; otherwise copy — contiguously when the
pitch is tight or the data is block-compressed, row by row otherwise —
and report success.  (The `none` cache branch stands for a null
dereference in the C++ and is unreachable for handles published
`ACTIVE`.) -/
def CopyLevelTo (h : ReplacedTexture) (level : Nat) (dest : Nat → Nat)
    (rowPitch : Nat) : Bool × (Nat → Nat) :=
  if h.state ≠ .ACTIVE then (false, dest)
  else
    match h.levelData with
    | none => (false, dest)
    | some c =>
      let info := h.levels.getD level level0Default
      let data := c.data.getD level []
      if data = [] then (false, dest)
      else if h.fmt = .R8G8B8A8_UNORM then
        if rowPitch < info.w * 4 then (false, dest)
        else if rowPitch = info.w * 4 then
          (true, writeBytesAt dest 0 (data.take (info.w * 4 * info.h)))
        else (true, copyRows data (info.w * 4) rowPitch info.h 0 dest)
      else (true, writeBytesAt dest 0 data)

/-- A fresh handle before `FinishPopulate`. -/
def initialTexture : ReplacedTexture :=
  { state := .UNINITIALIZED, levels := [], fmt := .UNDEFINED
    alphaStatus := .UNKNOWN, levelData := none, desc := none
    threadWaitable := false, lastUsed := 0 }

/-- One step of the handle's lifecycle against a fixed filesystem:
`FinishPopulate` (triggered externally from `UNINITIALIZED`, per the
spec's transition table), an `IsReady` poll (which may spawn the task
and may observe its completion), the background task completing between
polls, or an idle-eviction pass. -/
inductive TextureStep (fs : String → Option FSEntry) (cancel : Nat → Bool)
    (maxLevels : Nat) : ReplacedTexture → ReplacedTexture → Prop
  | finishPopulate (h : ReplacedTexture) (d : ReplacementDesc)
      (c : ReplacedLevelsCache) (hst : h.state = .UNINITIALIZED) :
      TextureStep fs cancel maxLevels h (FinishPopulate h d c)
  | ready (h : ReplacedTexture) (budget now : Int) (waitOk : Bool)
      (pf0 : DataFormat) :
      TextureStep fs cancel maxLevels h
        (IsReady h budget now waitOk (taskOutcome fs cancel maxLevels h pf0)).2
  | taskComplete (h : ReplacedTexture) (pf0 : DataFormat)
      (hst : h.state = .PENDING) :
      TextureStep fs cancel maxLevels h
        (applyPrepare h (taskOutcome fs cancel maxLevels h pf0))
  | purge (h : ReplacedTexture) (t : Int) (taskFinished : Bool) :
      TextureStep fs cancel maxLevels h (PurgeIfOlder h t taskFinished)

/-- States of a handle reachable from a fresh handle. -/
inductive TextureReachable (fs : String → Option FSEntry) (cancel : Nat → Bool)
    (maxLevels : Nat) : ReplacedTexture → Prop
  | init : TextureReachable fs cancel maxLevels initialTexture
  | step {h h' : ReplacedTexture} (hr : TextureReachable fs cancel maxLevels h)
      (hs : TextureStep fs cancel maxLevels h h') :
      TextureReachable fs cancel maxLevels h'

/-- The completion block publishes only `ACTIVE` or `NOT_FOUND`. -/
theorem prepFinish_state (st : PrepState) :
    (prepFinish st).state = .ACTIVE ∨ (prepFinish st).state = .NOT_FOUND := by
  unfold prepFinish
  split <;> simp

/-- A completed `Prepare` run always publishes `ACTIVE` or `NOT_FOUND`. -/
theorem Prepare_state (fs : String → Option FSEntry) (cancel : Nat → Bool)
    (maxLevels : Nat) (desc : ReplacementDesc) (cache : ReplacedLevelsCache)
    (levels0 : List ReplacedTextureLevel) (alpha0 : ReplacedTextureAlpha)
    (pf0 : DataFormat) :
    (Prepare fs cancel maxLevels desc cache levels0 alpha0 pf0).state = .ACTIVE ∨
    (Prepare fs cancel maxLevels desc cache levels0 alpha0 pf0).state = .NOT_FOUND := by
  unfold Prepare
  exact prepFinish_state _

/-- A `taskOutcome` always publishes `ACTIVE` or `NOT_FOUND`. -/
theorem taskOutcome_state (fs : String → Option FSEntry) (cancel : Nat → Bool)
    (maxLevels : Nat) (h : ReplacedTexture) (pf0 : DataFormat) :
    (taskOutcome fs cancel maxLevels h pf0).state = .ACTIVE ∨
    (taskOutcome fs cancel maxLevels h pf0).state = .NOT_FOUND := by
  unfold taskOutcome
  rcases hd : h.desc with _ | d <;> rcases hc : h.levelData with _ | c <;> simp
  exact Prepare_state fs cancel maxLevels d c h.levels h.alphaStatus pf0

/-- The entry resize of `LoadLevelData` preserves emptiness of the
buffer at the target level. -/
theorem getD_entryResize_empty (l : List (List Nat)) (mip : Nat)
    (h : l.getD mip [] = []) :
    (if l.length ≤ mip then resizeExact l (mip + 1) [] else l).getD mip [] = [] := by
  split
  · rename_i hle
    unfold resizeExact
    rw [List.getD_eq_getElem?_getD, List.getElem?_append_right]
    · rw [List.getElem?_replicate]
      split <;> simp
    · simp [List.length_take]
      omega
  · exact h

/-- `prepFinish` contract: empty levels publish `NOT_FOUND` with the
cache binding released; non-empty levels publish `ACTIVE` with the
cache format stamped; the descriptor is nulled either way. -/
theorem prepFinish_contract (st : PrepState) :
    ((prepFinish st).levels = [] →
      (prepFinish st).state = .NOT_FOUND ∧ (prepFinish st).cache = none ∧
      (prepFinish st).desc = none) ∧
    ((prepFinish st).levels ≠ [] →
      (prepFinish st).state = .ACTIVE ∧ (prepFinish st).desc = none ∧
      ∃ c, (prepFinish st).cache = some c ∧ c.fmt = (prepFinish st).fmt) := by
  unfold prepFinish
  rcases hE : st.ls.levels.isEmpty with _ | _
  · simp only [List.isEmpty_eq_false_iff_exists_mem] at hE
    simp only [List.isEmpty_iff] at *
    constructor
    · intro heq
      simp_all
    · intro _
      simp_all
  · simp only [List.isEmpty_iff] at hE
    simp_all

/-- C2: When the background load routine (`Prepare`) completes, zero
accepted mip levels leave the handle `NOT_FOUND` with the cache-entry
binding released, and at least one accepted level leaves it `ACTIVE`
with the cache entry's pixel format stamped with the resolved format;
in both cases the load descriptor is freed and nulled. -/
theorem Prepare_completion_contract (fs : String → Option FSEntry)
    (cancel : Nat → Bool) (maxLevels : Nat) (desc : ReplacementDesc)
    (cache : ReplacedLevelsCache) (levels0 : List ReplacedTextureLevel)
    (alpha0 : ReplacedTextureAlpha) (pf0 : DataFormat) (P : PrepOut)
    (hP : P = Prepare fs cancel maxLevels desc cache levels0 alpha0 pf0) :
    (P.levels = [] → P.state = .NOT_FOUND ∧ P.cache = none ∧ P.desc = none) ∧
    (P.levels ≠ [] → P.state = .ACTIVE ∧ P.desc = none ∧
      ∃ c, P.cache = some c ∧ c.fmt = P.fmt) := by
  subst hP
  unfold Prepare
  exact prepFinish_contract _

/-- Witness for C2: a descriptor with no candidate filenames loads zero
levels, so the run ends `NOT_FOUND` with the binding released and the
descriptor freed. -/
theorem Prepare_completion_contract_witness :
    (Prepare (fun _ => none) (fun _ => false) 12
        { filenames := [], w := 1, h := 1, newW := 1, newH := 1
          formatSupport := { bc123 := false, bc7 := false, etc2 := false, astc := false } }
        { fmt := .UNDEFINED, data := [], lastUsed := 0 } [] .UNKNOWN .UNDEFINED).state
      = .NOT_FOUND ∧
    (Prepare (fun _ => none) (fun _ => false) 12
        { filenames := [], w := 1, h := 1, newW := 1, newH := 1
          formatSupport := { bc123 := false, bc7 := false, etc2 := false, astc := false } }
        { fmt := .UNDEFINED, data := [], lastUsed := 0 } [] .UNKNOWN .UNDEFINED).cache
      = none := by
  have h := Prepare_completion_contract (fun _ => none) (fun _ => false) 12
    { filenames := [], w := 1, h := 1, newW := 1, newH := 1
      formatSupport := { bc123 := false, bc7 := false, etc2 := false, astc := false } }
    { fmt := .UNDEFINED, data := [], lastUsed := 0 } [] .UNKNOWN .UNDEFINED _ rfl
  exact ⟨(h.1 (by decide)).1, (h.1 (by decide)).2.1⟩

/-- No-cancellation oracle. -/
def cancelNone : Nat → Bool := fun _ => false

/-- Capability flags with only BC1-3 available. -/
def fsuppBC123 : FormatSupport := { bc123 := true, bc7 := false, etc2 := false, astc := false }

/-- Capability flags with no compressed family available. -/
def fsuppNone : FormatSupport := { bc123 := false, bc7 := false, etc2 := false, astc := false }

/-- An empty cache entry. -/
def cache0 : ReplacedLevelsCache := { fmt := .UNDEFINED, data := [], lastUsed := 0 }

/-- A well-formed `w` by `h` PNG file without an alpha channel. -/
def pngInfoOpaque (w h : Nat) : PNGInfo :=
  { peekRead := true
    validHeader := true
    w := w
    h := h
    beginReadOk := true
    finishReadOk := true
    hasAlphaFlag := false
    alphaRes := .CHECKALPHA_FULL }

/-- A filesystem entry for an opaque PNG. -/
def pngEntry (w h : Nat) : FSEntry := { openOk := true, file := .png (pngInfoOpaque w h) }

/-- A classic DXT1 (BC1) DDS header with `mips` declared mip levels. -/
def ddsInfoDXT1 (w h mips : Nat) : DDSInfo :=
  { hdrRead := true
    dwWidth := w
    dwHeight := h
    dwMipMapCount := mips
    fourccFlag := true
    fourcc := FOURCC_DXT1
    hdr10Read := false
    dxgiFormat := 0 }

/-- A filesystem entry for a DXT1 DDS. -/
def ddsEntryDXT1 (w h mips : Nat) : FSEntry :=
  { openOk := true, file := .dds (ddsInfoDXT1 w h mips) }

/-- The C4 failing input: an 8x8 opaque PNG as level 0 and a 4x4
single-mip DXT1 DDS as level 1. -/
def fsC4 : String → Option FSEntry := fun s =>
  if s = "l0" then some (pngEntry 8 8)
  else if s = "l1" then some (ddsEntryDXT1 4 4 1) else none

/-- Descriptor for the C4 failing input (scale ratio 1, BC1-3
supported). -/
def descC4 : ReplacementDesc :=
  { filenames := ["l0", "l1"], w := 8, h := 8, newW := 8, newH := 8
    formatSupport := fsuppBC123 }

/-- C4: running the load routine on an uncompressed (RGBA8) level 0
followed by a block-compressed (DXT1) level 1 does NOT stop before the
mismatched level: the DDS branch returns `DONE` after appending its mip
to the level list, so the handle goes `ACTIVE` with two accepted levels
whose decoded formats differ, and the handle/cache format is stamped
with level 1's BC1 — not level 0's RGBA8 that the data at level 0
actually has.  (On the way there the C++ also resizes the cache's level
array down to the DDS's mip count, 1, and then writes through index
`mipLevel + i` = 1, out of bounds; the model gives that write growing
semantics.)  This contradicts the documented stop-on-mismatch contract
and the spec's "exactly one accepted level" test property. -/
theorem Prepare_mixed_format_two_levels :
    (Prepare fsC4 cancelNone 12 descC4 cache0 [] .UNKNOWN .UNDEFINED).state = .ACTIVE ∧
    (Prepare fsC4 cancelNone 12 descC4 cache0 [] .UNKNOWN .UNDEFINED).levels.length = 2 ∧
    (Prepare fsC4 cancelNone 12 descC4 cache0 [] .UNKNOWN .UNDEFINED).fmt
        = .BC1_RGBA_UNORM_BLOCK ∧
    (Prepare fsC4 cancelNone 12 descC4 cache0 [] .UNKNOWN .UNDEFINED).cache
        = some { fmt := .BC1_RGBA_UNORM_BLOCK
                 data := [List.replicate 256 0, List.replicate 8 0]
                 lastUsed := 0 } := by
  refine ⟨?_, ?_, ?_, ?_⟩ <;> rfl

/-- C6: Idle eviction clears the bound cache entry's byte buffers and
demotes the handle to `POPULATED` only when no background task is
outstanding-and-unfinished and the entry's last-access time is older
than the threshold; while a task is outstanding and not yet finished,
or when the entry's last-access time is not older than the threshold,
the call changes nothing.  (The code additionally requires the handle's
own last-use time to be older than the threshold, which only narrows
the cases in which eviction fires.) -/
theorem PurgeIfOlder_contract (h : ReplacedTexture) (t : Int) (taskFin : Bool) :
    (PurgeIfOlder h t taskFin ≠ h →
      ¬(h.threadWaitable = true ∧ taskFin = false) ∧
      ∃ c, h.levelData = some c ∧ c.lastUsed < t) ∧
    (h.threadWaitable = true ∧ taskFin = false → PurgeIfOlder h t taskFin = h) ∧
    (∀ c, h.levelData = some c → t ≤ c.lastUsed → PurgeIfOlder h t taskFin = h) := by
  refine ⟨?_, ?_, ?_⟩
  · intro hne
    unfold PurgeIfOlder at hne
    split at hne
    · exact absurd rfl hne
    · split at hne
      · exact absurd rfl hne
      · rename_i hw _
        refine ⟨by simpa using hw, ?_⟩
        rcases hld : h.levelData with _ | c
        · simp only [hld] at hne
          exact absurd rfl hne
        · simp only [hld] at hne
          refine ⟨c, rfl, ?_⟩
          by_contra hge
          rw [if_neg hge] at hne
          exact hne rfl
  · intro hw
    unfold PurgeIfOlder
    rw [if_pos (by simp [hw.1, hw.2])]
  · intro c hld hge
    unfold PurgeIfOlder
    split
    · rfl
    · split
      · rfl
      · simp only [hld]
        rw [if_neg (by omega)]

/-- Witness for C6: with a still-unfinished outstanding task the purge
call leaves the handle untouched. -/
theorem PurgeIfOlder_contract_witness :
    PurgeIfOlder
        { state := .ACTIVE, levels := [], fmt := .UNDEFINED, alphaStatus := .UNKNOWN
          levelData := some cache0, desc := none, threadWaitable := true, lastUsed := 0 }
        5 false
      = { state := .ACTIVE, levels := [], fmt := .UNDEFINED, alphaStatus := .UNKNOWN
          levelData := some cache0, desc := none, threadWaitable := true, lastUsed := 0 } :=
  (PurgeIfOlder_contract _ 5 false).2.1 ⟨rfl, rfl⟩

/-- The minimum stride `CopyLevelTo` requires of `rowPitch`: the tight
`w * 4` for uncompressed RGBA8 data; block-compressed data is copied
contiguously and needs no pitch (per the spec, block layout needs no
pitch adjustment), so its requirement is 0. -/
def minRequiredStride (fmt : DataFormat) (w : Nat) : Nat :=
  if fmt = .R8G8B8A8_UNORM then w * 4 else 0

/-- C5: `CopyLevelTo` returns false exactly when the handle's state is
not `ACTIVE`, or the cache entry's byte buffer for the requested level
is empty (evicted), or the supplied `rowPitch` is below the minimum
required stride for the level's data; and whenever it returns false it
has written nothing to the destination. -/
theorem CopyLevelTo_contract (h : ReplacedTexture) (c : ReplacedLevelsCache)
    (level : Nat) (dest : Nat → Nat) (rowPitch : Nat)
    (hc : h.levelData = some c) :
    ((CopyLevelTo h level dest rowPitch).1 = false ↔
      (h.state ≠ .ACTIVE ∨ c.data.getD level [] = [] ∨
        rowPitch < minRequiredStride h.fmt (h.levels.getD level level0Default).w)) ∧
    ((CopyLevelTo h level dest rowPitch).1 = false →
      (CopyLevelTo h level dest rowPitch).2 = dest) := by
  unfold CopyLevelTo minRequiredStride
  simp only [hc, List.getD_eq_getElem?_getD]
  by_cases hst : h.state ≠ .ACTIVE
  · rw [if_pos hst]
    simp [hst]
  · rw [if_neg hst]
    push_neg at hst
    by_cases hd : c.data[level]?.getD [] = []
    · rw [if_pos hd]
      simp [hd]
    · rw [if_neg hd]
      by_cases hfmt : h.fmt = .R8G8B8A8_UNORM
      · rw [if_pos hfmt, if_pos hfmt]
        by_cases hp : rowPitch < (h.levels[level]?.getD level0Default).w * 4
        · rw [if_pos hp]
          simp [hp, hd]
        · rw [if_neg hp]
          split <;> simp [hst, hd, hp]
      · rw [if_neg hfmt, if_neg hfmt]
        simp [hst, hd]

/-- Witness for C5: an `ACTIVE` handle whose level-0 bytes were evicted
(empty buffer) makes the copy fail and leave the destination as is. -/
theorem CopyLevelTo_contract_witness :
    (CopyLevelTo
        { state := .ACTIVE, levels := [{ w := 2, h := 2, fileRef := true }]
          fmt := .R8G8B8A8_UNORM, alphaStatus := .UNKNOWN
          levelData := some { fmt := .R8G8B8A8_UNORM, data := [[]], lastUsed := 0 }
          desc := none, threadWaitable := false, lastUsed := 0 }
        0 (fun _ => 7) 8).1 = false ∧
    (CopyLevelTo
        { state := .ACTIVE, levels := [{ w := 2, h := 2, fileRef := true }]
          fmt := .R8G8B8A8_UNORM, alphaStatus := .UNKNOWN
          levelData := some { fmt := .R8G8B8A8_UNORM, data := [[]], lastUsed := 0 }
          desc := none, threadWaitable := false, lastUsed := 0 }
        0 (fun _ => 7) 8).2 = (fun _ => 7) := by
  have hmain := CopyLevelTo_contract
    { state := .ACTIVE, levels := [{ w := 2, h := 2, fileRef := true }]
      fmt := .R8G8B8A8_UNORM, alphaStatus := .UNKNOWN
      levelData := some { fmt := .R8G8B8A8_UNORM, data := [[]], lastUsed := 0 }
      desc := none, threadWaitable := false, lastUsed := 0 }
    { fmt := .R8G8B8A8_UNORM, data := [[]], lastUsed := 0 }
    0 (fun _ => 7) 8 rfl
  have hfalse := hmain.1.mpr (Or.inr (Or.inl rfl))
  exact ⟨hfalse, hmain.2 hfalse⟩

/-- The C3 counterexample input: a 1x1 opaque PNG as level 0 and
another 1x1 PNG as the level-1 candidate. -/
def fsC3 : String → Option FSEntry := fun s =>
  if s = "m0" then some (pngEntry 1 1)
  else if s = "m1" then some (pngEntry 1 1) else none

/-- Descriptor for the C3 counterexample (scale ratio 1). -/
def descC3 : ReplacementDesc :=
  { filenames := ["m0", "m1"], w := 1, h := 1, newW := 1, newH := 1
    formatSupport := fsuppNone }

/-- The dimension the claim expects at mip `n`: level 0's dimension
halved with integer floor and a minimum clamp of 1, exactly `n` times.
(This follows the claim's words; the code's check `mipSizeOk` instead
uses a plain right shift with no clamp.) -/
def halveClampIter (w : Nat) : Nat → Nat
  | 0 => w
  | n + 1 => max (halveClampIter w n / 2) 1

/-- C3 counterexample: with a 1x1 level 0, the 1x1 level-1 candidate's
ratio-corrected dimensions are exactly level 0's dimensions halved with
floor-and-minimum-1 once (`halveClampIter 1 1 = 1`), so the claim says
it is accepted; but the code's check compares against the unclamped
shift `1 >>> 1 = 0` and rejects it (`mipSizeOk ... = false`), and the
completed run accepts only the single level 0. -/
theorem mip_dim_clamp_counterexample :
    halveClampIter 1 1 = 1 ∧
    mipSizeOk { w := 1, h := 1, fileRef := true } 1 1 1 = false ∧
    (LoadLevelData descC3 (pngEntry 1 1) 1
        { cache := { fmt := .R8G8B8A8_UNORM, data := [List.replicate 4 0], lastUsed := 0 }
          levels := [{ w := 1, h := 1, fileRef := true }]
          alpha := .FULL, pixelFormat := .R8G8B8A8_UNORM }).1 = .LOAD_ERROR ∧
    (Prepare fsC3 cancelNone 12 descC3 cache0 [] .UNKNOWN .UNDEFINED).levels
      = [{ w := 1, h := 1, fileRef := true }] ∧
    (Prepare fsC3 cancelNone 12 descC3 cache0 [] .UNKNOWN .UNDEFINED).state = .ACTIVE := by
  refine ⟨rfl, rfl, rfl, rfl, rfl⟩

/-- C3 (amended): for a level with index `>= 1`, when the cache buffer
for that level is still empty, if the ratio-corrected header dimensions
differ from level 0's dimensions shifted right by the level index
(floor-halving without a minimum clamp), `LoadLevelData` returns
`LOAD_ERROR` — which makes `Prepare` stop loading further levels — and
the already-accepted level list is unchanged. -/
theorem LoadLevelData_mip_dim_check (desc : ReplacementDesc) (entry : FSEntry)
    (mip : Nat) (st : LoadState)
    (hmip : 1 ≤ mip) (hopen : entry.openOk = true)
    (hempty : st.cache.data.getD mip [] = [])
    (hdim : mipSizeOk (st.levels.getD 0 level0Default) mip
        ((headerPhase desc.formatSupport entry.file).w * desc.w / desc.newW)
        ((headerPhase desc.formatSupport entry.file).h * desc.h / desc.newH) = false) :
    (LoadLevelData desc entry mip st).1 = .LOAD_ERROR ∧
    (LoadLevelData desc entry mip st).2.levels = st.levels := by
  have hempty2 := getD_entryResize_empty st.cache.data mip hempty
  unfold LoadLevelData
  simp only [hopen, Bool.not_true, Bool.false_eq_true, if_false]
  rw [if_neg (by simpa using hempty2)]
  have hm0 : decide (mip = 0) = false := decide_eq_false (by omega)
  rw [hm0]
  simp only [Bool.false_or]
  rw [hdim, Bool.and_false]
  simp

/-- Witness for C3 (amended): a 2x2 level-1 candidate under a 1x1 level
0 corrects to 2x2, differs from `1 >>> 1 = 0`, and is rejected with the
accepted level list unchanged. -/
theorem LoadLevelData_mip_dim_check_witness :
    (LoadLevelData descC3 (pngEntry 2 2) 1
        { cache := { fmt := .R8G8B8A8_UNORM, data := [List.replicate 4 0], lastUsed := 0 }
          levels := [{ w := 1, h := 1, fileRef := true }]
          alpha := .FULL, pixelFormat := .R8G8B8A8_UNORM }).1 = .LOAD_ERROR ∧
    (LoadLevelData descC3 (pngEntry 2 2) 1
        { cache := { fmt := .R8G8B8A8_UNORM, data := [List.replicate 4 0], lastUsed := 0 }
          levels := [{ w := 1, h := 1, fileRef := true }]
          alpha := .FULL, pixelFormat := .R8G8B8A8_UNORM }).2.levels
      = [{ w := 1, h := 1, fileRef := true }] :=
  LoadLevelData_mip_dim_check descC3 (pngEntry 2 2) 1
    { cache := { fmt := .R8G8B8A8_UNORM, data := [List.replicate 4 0], lastUsed := 0 }
      levels := [{ w := 1, h := 1, fileRef := true }]
      alpha := .FULL, pixelFormat := .R8G8B8A8_UNORM }
    (by decide) rfl (by decide) (by decide)

/-- A `PrepState` with an empty accepted level list finishes
`NOT_FOUND` with the binding released. -/
theorem prepFinish_empty (st : PrepState) (h : st.ls.levels = []) :
    (prepFinish st).state = .NOT_FOUND ∧ (prepFinish st).cache = none := by
  unfold prepFinish
  rw [if_pos (by simp [h])]
  exact ⟨rfl, rfl⟩

/-- Running `Prepare` over a single-candidate descriptor whose level-0
load leaves the accepted level list empty ends `NOT_FOUND` with the
cache binding released (whatever the level-load result was). -/
theorem Prepare_single_empty (fs : String → Option FSEntry) (cancel : Nat → Bool)
    (maxLevels : Nat) (desc : ReplacementDesc) (cache : ReplacedLevelsCache)
    (alpha0 : ReplacedTextureAlpha) (pf0 : DataFormat) (name : String) (entry : FSEntry)
    (hfn : desc.filenames = [name]) (hname : ¬(name = "")) (hfs : fs name = some entry)
    (hcancel : cancel 0 = false) (hmax : 1 ≤ maxLevels)
    (hlev : (LoadLevelData desc entry 0
        { cache := cache, levels := [], alpha := alpha0, pixelFormat := pf0 }).2.levels = []) :
    (Prepare fs cancel maxLevels desc cache [] alpha0 pf0).state = .NOT_FOUND ∧
    (Prepare fs cancel maxLevels desc cache [] alpha0 pf0).cache = none := by
  have hmin : min maxLevels desc.filenames.length = 1 := by
    rw [hfn]
    simp
    omega
  unfold Prepare
  rw [hmin]
  simp only [prepareLoop, hcancel, hfn, List.getD_cons_zero, if_neg hname, hfs]
  rcases hr : (LoadLevelData desc entry 0
      { cache := cache, levels := [], alpha := alpha0, pixelFormat := pf0 }).1 with _ | _ | _ <;>
    simp only [hr, if_pos rfl, reduceIte] <;>
    exact prepFinish_empty _ (by simp [hlev])

/-- A level whose header phase already failed (`good == false`) and
whose cache buffer is still empty is rejected with `LOAD_ERROR`,
leaving the accepted level list unchanged. -/
theorem LoadLevelData_bad_header_error (desc : ReplacementDesc) (entry : FSEntry)
    (mip : Nat) (st : LoadState)
    (hopen : entry.openOk = true)
    (hempty : st.cache.data.getD mip [] = [])
    (hgood : (headerPhase desc.formatSupport entry.file).good = false) :
    (LoadLevelData desc entry mip st).1 = .LOAD_ERROR ∧
    (LoadLevelData desc entry mip st).2.levels = st.levels := by
  have hempty2 := getD_entryResize_empty st.cache.data mip hempty
  unfold LoadLevelData
  simp only [hopen, Bool.not_true, Bool.false_eq_true, if_false]
  rw [if_neg (by simpa using hempty2)]
  rw [hgood, Bool.false_and]
  simp

/-- C8: a DX10 DDS file (fourCC `DX10`) whose DXGI format code is 98 or
99 (BC7) is rejected at the header phase when the descriptor's BC7
capability flag is false, so loading level 0 fails with `LOAD_ERROR`
and a handle whose single candidate is such a file finishes
`NOT_FOUND`. -/
theorem dx10_bc7_unsupported_not_found
    (d : DDSInfo) (desc : ReplacementDesc) (st : LoadState)
    (fs : String → Option FSEntry) (cancel : Nat → Bool) (maxLevels : Nat)
    (cache : ReplacedLevelsCache) (alpha0 : ReplacedTextureAlpha) (pf0 : DataFormat)
    (name : String)
    (hfcc : d.fourccFlag = true) (hdx10 : d.fourcc = FOURCC_DX10)
    (hfmt98 : d.dxgiFormat = 98 ∨ d.dxgiFormat = 99)
    (hbc7 : desc.formatSupport.bc7 = false)
    (hempty : st.cache.data.getD 0 [] = [])
    (hfn : desc.filenames = [name]) (hname : ¬(name = ""))
    (hfs : fs name = some { openOk := true, file := .dds d })
    (hcancel : cancel 0 = false) (hmax : 1 ≤ maxLevels)
    (hempty0 : cache.data.getD 0 [] = []) :
    (LoadLevelData desc { openOk := true, file := .dds d } 0 st).1 = .LOAD_ERROR ∧
    (Prepare fs cancel maxLevels desc cache [] alpha0 pf0).state = .NOT_FOUND ∧
    (Prepare fs cancel maxLevels desc cache [] alpha0 pf0).cache = none := by
  have hgood : (headerPhase desc.formatSupport (VFile.dds d)).good = false := by
    rcases hh : d.hdrRead with _ | _
    · simp [headerPhase, hh]
    · simp only [headerPhase, hh, hfcc, hdx10]
      rw [if_pos trivial, if_pos hfmt98]
      simp [hbc7]
  have herr := LoadLevelData_bad_header_error desc
    { openOk := true, file := .dds d } 0 st rfl hempty hgood
  have herr0 := LoadLevelData_bad_header_error desc
    { openOk := true, file := .dds d } 0
    { cache := cache, levels := [], alpha := alpha0, pixelFormat := pf0 }
    rfl hempty0 hgood
  have hprep := Prepare_single_empty fs cancel maxLevels desc cache alpha0 pf0 name
    { openOk := true, file := .dds d } hfn hname hfs hcancel hmax herr0.2
  exact ⟨herr.1, hprep.1, hprep.2⟩

/-- Witness for C8: a concrete DX10/BC7 DDS under a descriptor without
BC7 support fails level 0 and the handle ends `NOT_FOUND`. -/
theorem dx10_bc7_unsupported_not_found_witness :
    (LoadLevelData
        { filenames := ["b"], w := 8, h := 8, newW := 8, newH := 8
          formatSupport := fsuppBC123 }
        { openOk := true
          file := .dds { hdrRead := true, dwWidth := 8, dwHeight := 8, dwMipMapCount := 1
                         fourccFlag := true, fourcc := FOURCC_DX10, hdr10Read := true
                         dxgiFormat := 98 } }
        0 { cache := cache0, levels := [], alpha := .UNKNOWN, pixelFormat := .UNDEFINED }).1
      = .LOAD_ERROR ∧
    (Prepare (fun s => if s = "b" then
          some { openOk := true
                 file := .dds { hdrRead := true, dwWidth := 8, dwHeight := 8, dwMipMapCount := 1
                                fourccFlag := true, fourcc := FOURCC_DX10, hdr10Read := true
                                dxgiFormat := 98 } }
          else none)
        cancelNone 12
        { filenames := ["b"], w := 8, h := 8, newW := 8, newH := 8
          formatSupport := fsuppBC123 }
        cache0 [] .UNKNOWN .UNDEFINED).state = .NOT_FOUND := by
  have h := dx10_bc7_unsupported_not_found
    { hdrRead := true, dwWidth := 8, dwHeight := 8, dwMipMapCount := 1
      fourccFlag := true, fourcc := FOURCC_DX10, hdr10Read := true, dxgiFormat := 98 }
    { filenames := ["b"], w := 8, h := 8, newW := 8, newH := 8
      formatSupport := fsuppBC123 }
    { cache := cache0, levels := [], alpha := .UNKNOWN, pixelFormat := .UNDEFINED }
    (fun s => if s = "b" then
        some { openOk := true
               file := .dds { hdrRead := true, dwWidth := 8, dwHeight := 8, dwMipMapCount := 1
                              fourccFlag := true, fourcc := FOURCC_DX10, hdr10Read := true
                              dxgiFormat := 98 } }
        else none)
    cancelNone 12 cache0 .UNKNOWN .UNDEFINED "b"
    rfl rfl (Or.inl rfl) rfl rfl rfl (by decide) rfl rfl (by decide) rfl
  exact ⟨h.1, h.2.1⟩

/-- C9: when the shared cache entry's byte buffer for the requested mip
level is already non-empty, `LoadLevelData` closes the file, adopts the
cache entry's stored pixel format, and returns `DONE` without touching
the level list or the cache bytes; consequently a handle whose level-0
bytes are pre-populated (by another handle bound to the same content
identity) finishes with an empty level sequence, state `NOT_FOUND`, and
its cache binding released — not `ACTIVE`. -/
theorem cache_prepopulated_short_circuit :
    (∀ (desc : ReplacementDesc) (entry : FSEntry) (mip : Nat) (st : LoadState),
      entry.openOk = true → st.cache.data.getD mip [] ≠ [] →
      (LoadLevelData desc entry mip st).1 = .DONE ∧
      (LoadLevelData desc entry mip st).2.levels = st.levels ∧
      (LoadLevelData desc entry mip st).2.pixelFormat = st.cache.fmt ∧
      (LoadLevelData desc entry mip st).2.cache.data = st.cache.data) ∧
    (∀ (fs : String → Option FSEntry) (cancel : Nat → Bool) (maxLevels : Nat)
      (desc : ReplacementDesc) (cache : ReplacedLevelsCache)
      (alpha0 : ReplacedTextureAlpha) (pf0 : DataFormat) (name : String)
      (entry : FSEntry),
      desc.filenames = [name] → ¬(name = "") → fs name = some entry →
      entry.openOk = true → cancel 0 = false → 1 ≤ maxLevels →
      cache.data.getD 0 [] ≠ [] →
      (Prepare fs cancel maxLevels desc cache [] alpha0 pf0).state = .NOT_FOUND ∧
      (Prepare fs cancel maxLevels desc cache [] alpha0 pf0).cache = none) := by
  have hmain : ∀ (desc : ReplacementDesc) (entry : FSEntry) (mip : Nat) (st : LoadState),
      entry.openOk = true → st.cache.data.getD mip [] ≠ [] →
      (LoadLevelData desc entry mip st).1 = .DONE ∧
      (LoadLevelData desc entry mip st).2.levels = st.levels ∧
      (LoadLevelData desc entry mip st).2.pixelFormat = st.cache.fmt ∧
      (LoadLevelData desc entry mip st).2.cache.data = st.cache.data := by
    intro desc entry mip st hopen hfull
    have hlen : ¬(st.cache.data.length ≤ mip) := by
      intro hle
      exact hfull (List.getD_eq_default _ _ hle)
    unfold LoadLevelData
    simp only [hopen, Bool.not_true, Bool.false_eq_true, if_false, if_neg hlen]
    rw [if_pos (by simpa using hfull)]
    exact ⟨rfl, rfl, rfl, rfl⟩
  refine ⟨hmain, ?_⟩
  intro fs cancel maxLevels desc cache alpha0 pf0 name entry hfn hname hfs hopen hcancel hmax hfull
  exact Prepare_single_empty fs cancel maxLevels desc cache alpha0 pf0 name entry
    hfn hname hfs hcancel hmax
    ((hmain desc entry 0
      { cache := cache, levels := [], alpha := alpha0, pixelFormat := pf0 } hopen hfull).2.1)

/-- Witness for C9: an openable 8x8 PNG at level 0 whose cache bytes
are already populated yields `DONE` without a level, and the run ends
`NOT_FOUND` with the binding released. -/
theorem cache_prepopulated_short_circuit_witness :
    (LoadLevelData
        { filenames := ["m0"], w := 8, h := 8, newW := 8, newH := 8
          formatSupport := fsuppNone }
        (pngEntry 8 8) 0
        { cache := { fmt := .BC1_RGBA_UNORM_BLOCK, data := [[1, 2, 3]], lastUsed := 0 }
          levels := [], alpha := .UNKNOWN, pixelFormat := .UNDEFINED }).1 = .DONE ∧
    (Prepare (fun s => if s = "m0" then some (pngEntry 8 8) else none)
        cancelNone 12
        { filenames := ["m0"], w := 8, h := 8, newW := 8, newH := 8
          formatSupport := fsuppNone }
        { fmt := .BC1_RGBA_UNORM_BLOCK, data := [[1, 2, 3]], lastUsed := 0 }
        [] .UNKNOWN .UNDEFINED).state = .NOT_FOUND := by
  have h1 := cache_prepopulated_short_circuit.1
    { filenames := ["m0"], w := 8, h := 8, newW := 8, newH := 8
      formatSupport := fsuppNone }
    (pngEntry 8 8) 0
    { cache := { fmt := .BC1_RGBA_UNORM_BLOCK, data := [[1, 2, 3]], lastUsed := 0 }
      levels := [], alpha := .UNKNOWN, pixelFormat := .UNDEFINED }
    rfl (by decide)
  have h2 := cache_prepopulated_short_circuit.2
    (fun s => if s = "m0" then some (pngEntry 8 8) else none)
    cancelNone 12
    { filenames := ["m0"], w := 8, h := 8, newW := 8, newH := 8
      formatSupport := fsuppNone }
    { fmt := .BC1_RGBA_UNORM_BLOCK, data := [[1, 2, 3]], lastUsed := 0 }
    .UNKNOWN .UNDEFINED "m0" (pngEntry 8 8)
    rfl (by decide) rfl rfl rfl (by decide) (by decide)
  exact ⟨h1.1, h2.1⟩

/-- C10: the sniffer recognizes a fifth signature beyond the four
documented containers — leading bytes `s`, `B` with a little-endian
16-bit version of at least `0x10` identify a standalone Basis file as
the distinct type `BASIS` — and a file of that type (with its cache
buffer still empty) is unconditionally rejected as unsupported with a
level-load error, so a level-0 Basis file produces final state
`NOT_FOUND`. -/
theorem basis_signature_rejected :
    (∀ m2 m3 : Nat, 0x10 ≤ m2 ||| (m3 <<< 8) →
      IdentifyMagic 0x73 0x42 m2 m3 = .BASIS) ∧
    (∀ (desc : ReplacementDesc) (mip : Nat) (st : LoadState),
      st.cache.data.getD mip [] = [] →
      (LoadLevelData desc { openOk := true, file := .basis } mip st).1 = .LOAD_ERROR ∧
      (LoadLevelData desc { openOk := true, file := .basis } mip st).2.levels = st.levels) ∧
    (∀ (fs : String → Option FSEntry) (cancel : Nat → Bool) (maxLevels : Nat)
      (desc : ReplacementDesc) (cache : ReplacedLevelsCache)
      (alpha0 : ReplacedTextureAlpha) (pf0 : DataFormat) (name : String),
      desc.filenames = [name] → ¬(name = "") →
      fs name = some { openOk := true, file := .basis } →
      cancel 0 = false → 1 ≤ maxLevels → cache.data.getD 0 [] = [] →
      (Prepare fs cancel maxLevels desc cache [] alpha0 pf0).state = .NOT_FOUND ∧
      (Prepare fs cancel maxLevels desc cache [] alpha0 pf0).cache = none) := by
  refine ⟨?_, ?_, ?_⟩
  · intro m2 m3 hver
    unfold IdentifyMagic
    rw [if_neg (by omega), if_neg (by omega), if_neg (by omega),
      if_pos (by omega), if_pos hver]
  · intro desc mip st hempty
    exact LoadLevelData_bad_header_error desc { openOk := true, file := .basis }
      mip st rfl hempty rfl
  · intro fs cancel maxLevels desc cache alpha0 pf0 name hfn hname hfs hcancel hmax hempty
    exact Prepare_single_empty fs cancel maxLevels desc cache alpha0 pf0 name
      { openOk := true, file := .basis } hfn hname hfs hcancel hmax
      ((LoadLevelData_bad_header_error desc { openOk := true, file := .basis } 0
        { cache := cache, levels := [], alpha := alpha0, pixelFormat := pf0 }
        rfl hempty rfl).2)

/-- Witness for C10: the concrete magic `s`, `B`, `0x10`, `0x00` is
identified as `BASIS`; a level-0 standalone Basis file yields
`LOAD_ERROR` and the completed run ends `NOT_FOUND`. -/
theorem basis_signature_rejected_witness :
    IdentifyMagic 0x73 0x42 0x10 0x00 = .BASIS ∧
    (LoadLevelData
        { filenames := ["x"], w := 1, h := 1, newW := 1, newH := 1
          formatSupport := fsuppNone }
        { openOk := true, file := .basis } 0
        { cache := cache0, levels := [], alpha := .UNKNOWN, pixelFormat := .UNDEFINED }).1
      = .LOAD_ERROR ∧
    (Prepare (fun s => if s = "x" then some { openOk := true, file := .basis } else none)
        cancelNone 12
        { filenames := ["x"], w := 1, h := 1, newW := 1, newH := 1
          formatSupport := fsuppNone }
        cache0 [] .UNKNOWN .UNDEFINED).state = .NOT_FOUND := by
  refine ⟨basis_signature_rejected.1 0x10 0x00 (by decide), ?_, ?_⟩
  · exact (basis_signature_rejected.2.1
      { filenames := ["x"], w := 1, h := 1, newW := 1, newH := 1
        formatSupport := fsuppNone } 0
      { cache := cache0, levels := [], alpha := .UNKNOWN, pixelFormat := .UNDEFINED }
      rfl).1
  · exact (basis_signature_rejected.2.2
      (fun s => if s = "x" then some { openOk := true, file := .basis } else none)
      cancelNone 12
      { filenames := ["x"], w := 1, h := 1, newW := 1, newH := 1
        formatSupport := fsuppNone }
      cache0 .UNKNOWN .UNDEFINED "x" rfl (by decide) rfl rfl (by decide) rfl).1

/-- C1: for every texture replacement handle and every budget value,
`IsReady` can report true only with the handle in `ACTIVE` or
`NOT_FOUND` (including the path that spawns the background task and
waits it out within the budget, since a completed task only ever
publishes those two states); and entered in `UNINITIALIZED`, `PENDING`
(completion signal not yet fired within the budget), or `CANCEL_INIT`
it always returns false. -/
theorem IsReady_true_only_active_notfound
    (h : ReplacedTexture) (budget now : Int) (waitOk : Bool)
    (fs : String → Option FSEntry) (cancel : Nat → Bool) (maxLevels : Nat)
    (pf0 : DataFormat) (prep : PrepOut)
    (hp : prep = taskOutcome fs cancel maxLevels h pf0) :
    ((h.state = .UNINITIALIZED ∨ h.state = .PENDING ∨ h.state = .CANCEL_INIT) →
      (IsReady h budget now waitOk prep).1 = false) ∧
    ((IsReady h budget now waitOk prep).1 = true →
      (IsReady h budget now waitOk prep).2.state = .ACTIVE ∨
      (IsReady h budget now waitOk prep).2.state = .NOT_FOUND) := by
  constructor
  · intro hst
    rcases hst with hst | hst | hst <;> simp [IsReady, hst]
  · intro htrue
    rcases hs : h.state with _ | _ | _ | _ | _ | _
    · simp [IsReady, hs] at htrue
    · simp only [IsReady, hs] at htrue ⊢
      by_cases hb : budget < 0
      · rw [if_pos hb] at htrue
        simp at htrue
      · rw [if_neg hb] at htrue ⊢
        rcases waitOk with _ | _
        · simp at htrue
        · simp only [if_pos rfl, applyPrepare]
          rcases taskOutcome_state fs cancel maxLevels h pf0 with hts | hts <;>
            rw [← hp] at hts <;> simp [hts]
    · simp [IsReady, hs] at htrue
    · simp only [IsReady, hs] at htrue ⊢
      by_cases hwt : h.threadWaitable
      · rw [if_pos hwt] at htrue ⊢
        rcases waitOk with _ | _
        · simp at htrue
        · simp [hs]
      · rw [if_neg hwt] at htrue ⊢
        simp [hs]
    · simp only [IsReady, hs] at htrue ⊢
      by_cases hwt : h.threadWaitable
      · rw [if_pos hwt] at htrue ⊢
        rcases waitOk with _ | _
        · simp at htrue
        · simp [hs]
      · rw [if_neg hwt] at htrue ⊢
        simp [hs]
    · simp [IsReady, hs] at htrue

/-- Witness for C1: a fresh `UNINITIALIZED` handle polls false. -/
theorem IsReady_true_only_active_notfound_witness :
    (IsReady initialTexture 0 0 false
        (taskOutcome (fun _ => none) cancelNone 12 initialTexture .UNDEFINED)).1 = false :=
  (IsReady_true_only_active_notfound initialTexture 0 0 false
    (fun _ => none) cancelNone 12 .UNDEFINED
    (taskOutcome (fun _ => none) cancelNone 12 initialTexture .UNDEFINED) rfl).1
    (Or.inl rfl)

/-- C7 (amended): in every reachable state of a texture replacement
handle, a non-null load descriptor implies the state is `POPULATED` or
`PENDING`.  The converse direction of the claim fails: after the
eviction side-channel demotes a loaded handle back to `POPULATED`, the
descriptor (freed when the load completed) stays null — see the
counterexample. -/
theorem reachable_desc_only_populated_pending
    (fs : String → Option FSEntry) (cancel : Nat → Bool) (maxLevels : Nat)
    (h : ReplacedTexture)
    (hr : TextureReachable fs cancel maxLevels h)
    (hd : h.desc ≠ none) :
    h.state = .POPULATED ∨ h.state = .PENDING := by
  induction hr with
  | init => simp [initialTexture] at hd
  | @step h0 h1 hprev hstep ih =>
    cases hstep with
    | finishPopulate d c hst =>
      left
      rfl
    | ready budget now waitOk pf0 =>
      rcases hs : h0.state with _ | _ | _ | _ | _ | _
      · simp only [IsReady, hs] at hd
        have := ih hd
        rw [hs] at this
        simp at this
      · simp only [IsReady, hs] at hd ⊢
        by_cases hb : budget < 0
        · rw [if_pos hb]
          left
          rfl
        · rw [if_neg hb] at hd ⊢
          rcases waitOk with _ | _
          · right
            rfl
          · simp only [if_pos rfl] at hd
            simp [applyPrepare] at hd
      · simp only [IsReady, hs]
        exact Or.inr trivial
      · simp only [IsReady, hs] at hd ⊢
        by_cases hwt : h0.threadWaitable
        · rw [if_pos hwt] at hd
          rcases waitOk with _ | _
          · have := ih (by simpa using hd)
            rw [hs] at this
            simp at this
          · have := ih (by simpa using hd)
            rw [hs] at this
            simp at this
        · rw [if_neg hwt] at hd
          have := ih (by simpa using hd)
          rw [hs] at this
          simp at this
      · simp only [IsReady, hs] at hd ⊢
        by_cases hwt : h0.threadWaitable
        · rw [if_pos hwt] at hd
          rcases waitOk with _ | _
          · have := ih (by simpa using hd)
            rw [hs] at this
            simp at this
          · have := ih (by simpa using hd)
            rw [hs] at this
            simp at this
        · rw [if_neg hwt] at hd
          have := ih (by simpa using hd)
          rw [hs] at this
          simp at this
      · simp only [IsReady, hs] at hd
        have := ih hd
        rw [hs] at this
        simp at this
    | taskComplete pf0 hst =>
      simp [applyPrepare] at hd
    | purge t fin =>
      unfold PurgeIfOlder at hd ⊢
      by_cases hc1 : h0.threadWaitable = true ∧ (!fin) = true
      · rw [if_pos hc1] at hd ⊢
        exact ih hd
      · rw [if_neg hc1] at hd ⊢
        by_cases hc2 : t ≤ h0.lastUsed
        · rw [if_pos hc2] at hd ⊢
          exact ih hd
        · rw [if_neg hc2] at hd ⊢
          rcases hld : h0.levelData with _ | c
          · simp only [hld] at hd ⊢
            exact ih hd
          · simp only [hld] at hd ⊢
            by_cases hc3 : c.lastUsed < t
            · rw [if_pos hc3]
              left
              rfl
            · rw [if_neg hc3] at hd ⊢
              exact ih hd

/-- Filesystem for the eviction scenario: a single 8x8 PNG. -/
def fsC7 : String → Option FSEntry := fun s =>
  if s = "p0" then some (pngEntry 8 8) else none

/-- Descriptor for the eviction scenario. -/
def descC7 : ReplacementDesc :=
  { filenames := ["p0"], w := 8, h := 8, newW := 8, newH := 8
    formatSupport := fsuppNone }

/-- The handle after: populate, a ready-poll that spawns the task and
observes its completion within the budget, then an idle eviction at
threshold 5 with the task finished. -/
def evictedTexture : ReplacedTexture :=
  PurgeIfOlder
    (IsReady (FinishPopulate initialTexture descC7 cache0) 0 0 true
      (taskOutcome fsC7 cancelNone 12 (FinishPopulate initialTexture descC7 cache0)
        .UNDEFINED)).2
    5 true

/-- C7 counterexample: a reachable handle that idle eviction demoted
back to `POPULATED` has a null descriptor, so "the load descriptor is
non-null exactly while the state is POPULATED or PENDING" is false for
this reachable state (the claim itself asserts the descriptor is null
after the eviction demotion, contradicting its own "exactly"). -/
theorem evicted_populated_desc_null :
    TextureReachable fsC7 cancelNone 12 evictedTexture ∧
    evictedTexture.state = .POPULATED ∧
    evictedTexture.desc = none ∧
    ¬(evictedTexture.desc ≠ none ↔
      (evictedTexture.state = .POPULATED ∨ evictedTexture.state = .PENDING)) := by
  refine ⟨?_, by decide, by decide, by decide⟩
  exact TextureReachable.step
    (TextureReachable.step
      (TextureReachable.step TextureReachable.init
        (TextureStep.finishPopulate initialTexture descC7 cache0 rfl))
      (TextureStep.ready (FinishPopulate initialTexture descC7 cache0) 0 0 true .UNDEFINED))
    (TextureStep.purge _ 5 true)

/-- Witness for C7 (amended): a freshly populated handle has a
descriptor, and the invariant places it in `POPULATED` or `PENDING`. -/
theorem reachable_desc_only_populated_pending_witness :
    (FinishPopulate initialTexture descC7 cache0).state = .POPULATED ∨
    (FinishPopulate initialTexture descC7 cache0).state = .PENDING :=
  reachable_desc_only_populated_pending fsC7 cancelNone 12 _
    (TextureReachable.step TextureReachable.init
      (TextureStep.finishPopulate initialTexture descC7 cache0 rfl))
    (by decide)
